import Mathlib

/-
Verification of the learnopengl "hello triangle" program (src/src/main.cpp).

The program is a single straight-line `main` that drives the OpenGL / GLFW
APIs, plus two small functions (`framebuffer_size_callback`, `processInput`).
We embed it shallowly as a *command trace*: every API call the program makes
is a constructor of `Cmd`, and `mainRun` produces the exact sequence of calls
`main` performs, parametrised by an environment `Env` recording the outcomes
the external collaborators report (window creation, GLAD loading, the two
shader compile statuses, the link status, and the per-frame input).  The
render loop is made terminating with an explicit fuel parameter; the second
component of `renderLoop` records whether the loop exited (the while-condition
became false) or the fuel ran out with the loop still running.
-/

/-- One OpenGL / GLFW API call issued by the program, with the arguments that
matter for the specification.  Handles returned by the API are modelled as the
fixed distinct naturals below (`vertexShader`, `fragmentShader`,
`shaderProgram`, `VBO`, `VAO`), matching the variables of `main`. -/
inductive Cmd where
  | glfwInit
  | glfwWindowHint (target value : Nat)
  | glfwCreateWindow (width height : Nat) (title : String)
  | glfwTerminate
  | glfwMakeContextCurrent
  | glfwSetFramebufferSizeCallback
  | gladLoadGLLoader
  | coutError (msg : String)
  | glCreateShader (stage : Nat)
  | glShaderSource (shader : Nat)
  | glCompileShader (shader : Nat)
  | glGetShaderiv (shader : Nat)
  | glGetShaderInfoLog (shader : Nat)
  | glCreateProgram
  | glAttachShader (program shader : Nat)
  | glLinkProgram (program : Nat)
  | glUseProgram (program : Nat)
  | glDeleteShader (shader : Nat)
  | glGetProgramiv (program : Nat)
  | glGetProgramInfoLog (program : Nat)
  | glGenBuffers (buffer : Nat)
  | glGenVertexArrays (array : Nat)
  | glBindVertexArray (array : Nat)
  | glBindBuffer (target buffer : Nat)
  | glBufferData (target bytes usage : Nat)
  | glVertexAttribPointer (index size typ : Nat) (normalized : Bool) (stride offset : Nat)
  | glEnableVertexAttribArray (index : Nat)
  | glClearColor (r g b a : ℚ)
  | glClear (mask : Nat)
  | glDrawArrays (mode first count : Nat)
  | glfwSwapBuffers
  | glfwPollEvents
  | glfwGetKey (key : Nat)
  | glfwSetWindowShouldClose
  | glViewport (x y width height : Int)
deriving DecidableEq

/-- GLFW constant (glfw3.h). -/
def GLFW_CONTEXT_VERSION_MAJOR : Nat := 0x00022002

/-- GLFW constant (glfw3.h). -/
def GLFW_CONTEXT_VERSION_MINOR : Nat := 0x00022003

/-- GLFW constant (glfw3.h). -/
def GLFW_OPENGL_PROFILE : Nat := 0x00022008

/-- GLFW constant (glfw3.h). -/
def GLFW_OPENGL_CORE_PROFILE : Nat := 0x00032001

/-- GLFW constant (glfw3.h). -/
def GLFW_KEY_ESCAPE : Nat := 256

/-- OpenGL constant (glad.h). -/
def GL_VERTEX_SHADER : Nat := 0x8B31

/-- OpenGL constant (glad.h). -/
def GL_FRAGMENT_SHADER : Nat := 0x8B30

/-- OpenGL constant (glad.h). -/
def GL_ARRAY_BUFFER : Nat := 0x8892

/-- OpenGL constant (glad.h). -/
def GL_STATIC_DRAW : Nat := 0x88E4

/-- OpenGL constant (glad.h). -/
def GL_FLOAT : Nat := 0x1406

/-- OpenGL constant (glad.h). -/
def GL_COLOR_BUFFER_BIT : Nat := 0x4000

/-- OpenGL constant (glad.h). -/
def GL_TRIANGLES : Nat := 4

/-- Handle held by the variable `vertexShader` of `main` (line 118). -/
def vertexShader : Nat := 1

/-- Handle held by the variable `fragmentShader` of `main` (line 135). -/
def fragmentShader : Nat := 2

/-- Handle held by the variable `shaderProgram` of `main` (line 150). -/
def shaderProgram : Nat := 3

/-- Handle held by the variable `VBO` of `main` (line 182). -/
def VBO : Nat := 4

/-- Handle held by the variable `VAO` of `main` (line 226). -/
def VAO : Nat := 5

/-- The vertex array of `main` (lines 172-176): three vertices of three float
components each, modelled over ℚ. -/
def vertices : List ℚ := [-(1/2), -(1/2), 0, 1/2, -(1/2), 0, 0, 1/2, 0]

/-- `sizeof(float)` on the target platform. -/
def sizeofFloat : Nat := 4

/-- Window title string (line 96). -/
def windowTitle : String := "LearnOpenGL"

/-- Diagnostic printed at line 99. -/
def msgWindowFail : String := "Failed to create GLFW window"

/-- Diagnostic printed at line 110. -/
def msgGladFail : String := "Failed to initialize GLAD"

/-- Diagnostic printed at line 131. -/
def msgVertexFail : String := "ERROR::SHADER::VERTEX::COMPILATION_FAILED"

/-- Diagnostic printed at line 146. -/
def msgFragmentFail : String := "ERROR::SHADER::FRAGMENT::COMPILATION_FAILED"

/-- Diagnostic printed at line 166. -/
def msgLinkFail : String := "ERROR::SHADER::PROGRAM:: Linking failed"

/-- Outcomes reported by the external collaborators (windowing system, GLAD
loader, GL driver) and the per-frame input, which together determine the
control flow of `main`.  `escPressed i` is whether `glfwGetKey` reports the
escape key pressed during frame `i`; `closeRequested i` is whether the window
system raises a close request observed during frame `i`. -/
structure Env where
  windowOk : Bool
  gladOk : Bool
  vertexCompileOk : Bool
  fragmentCompileOk : Bool
  linkOk : Bool
  escPressed : Nat → Bool
  closeRequested : Nat → Bool

/-- Lines 86-96: `glfwInit`, the three window hints and `glfwCreateWindow`. -/
def bootCmds : List Cmd :=
  [Cmd.glfwInit,
   Cmd.glfwWindowHint GLFW_CONTEXT_VERSION_MAJOR 3,
   Cmd.glfwWindowHint GLFW_CONTEXT_VERSION_MINOR 3,
   Cmd.glfwWindowHint GLFW_OPENGL_PROFILE GLFW_OPENGL_CORE_PROFILE,
   Cmd.glfwCreateWindow 800 600 windowTitle]

/-- Lines 103-108: context made current, resize callback registered, GLAD
loader invoked. -/
def contextCmds : List Cmd :=
  bootCmds ++
  [Cmd.glfwMakeContextCurrent, Cmd.glfwSetFramebufferSizeCallback, Cmd.gladLoadGLLoader]

/-- Lines 97-102: window creation failed, diagnostic, `glfwTerminate`,
`return -1`. -/
def windowFailCmds : List Cmd :=
  bootCmds ++ [Cmd.coutError msgWindowFail, Cmd.glfwTerminate]

/-- Lines 108-112: GLAD loading failed, diagnostic, `return -1` (note: no
`glfwTerminate` on this path). -/
def gladFailCmds : List Cmd :=
  contextCmds ++ [Cmd.coutError msgGladFail]

/-- Lines 118-132: vertex shader creation, compilation and status check; on
failure the info log of `vertexShader` is fetched and a diagnostic printed. -/
def vertexCompileCmds (ok : Bool) : List Cmd :=
  [Cmd.glCreateShader GL_VERTEX_SHADER, Cmd.glShaderSource vertexShader,
   Cmd.glCompileShader vertexShader, Cmd.glGetShaderiv vertexShader] ++
  if ok then [] else [Cmd.glGetShaderInfoLog vertexShader, Cmd.coutError msgVertexFail]

/-- Lines 135-147: fragment shader creation, compilation and status check.
Note: on failure the source calls `glGetShaderInfoLog(vertexShader, ...)`
(line 145), i.e. it fetches the info log of the *vertex* shader handle, not
the fragment shader handle, while printing the FRAGMENT diagnostic. -/
def fragmentCompileCmds (ok : Bool) : List Cmd :=
  [Cmd.glCreateShader GL_FRAGMENT_SHADER, Cmd.glShaderSource fragmentShader,
   Cmd.glCompileShader fragmentShader, Cmd.glGetShaderiv fragmentShader] ++
  if ok then [] else [Cmd.glGetShaderInfoLog vertexShader, Cmd.coutError msgFragmentFail]

/-- Lines 150-155: program creation, both shaders attached, link, and
`glUseProgram` — all unconditional. -/
def linkHeadCmds : List Cmd :=
  [Cmd.glCreateProgram, Cmd.glAttachShader shaderProgram vertexShader,
   Cmd.glAttachShader shaderProgram fragmentShader, Cmd.glLinkProgram shaderProgram,
   Cmd.glUseProgram shaderProgram]

/-- Lines 159-160: both intermediate shader handles deleted, unconditionally. -/
def deleteShaderCmds : List Cmd :=
  [Cmd.glDeleteShader vertexShader, Cmd.glDeleteShader fragmentShader]

/-- Lines 163-167: link status check; on failure the program info log is
fetched and a diagnostic printed. -/
def linkCheckCmds (ok : Bool) : List Cmd :=
  [Cmd.glGetProgramiv shaderProgram] ++
  if ok then [] else [Cmd.glGetProgramInfoLog shaderProgram, Cmd.coutError msgLinkFail]

/-- Lines 118-167: the whole shader pipeline setup. -/
def shaderSetupCmds (env : Env) : List Cmd :=
  vertexCompileCmds env.vertexCompileOk ++ fragmentCompileCmds env.fragmentCompileOk ++
  linkHeadCmds ++ deleteShaderCmds ++ linkCheckCmds env.linkOk

/-- Lines 182-238: buffer/vertex-array generation and the VAO/VBO binding
sequence (gen VBO at 183, gen VAO at 227, then bind VAO, bind VBO, copy data,
declare attribute layout, enable slot, unbind VBO, unbind VAO). -/
def geometrySetupCmds : List Cmd :=
  [Cmd.glGenBuffers VBO, Cmd.glGenVertexArrays VAO, Cmd.glBindVertexArray VAO,
   Cmd.glBindBuffer GL_ARRAY_BUFFER VBO,
   Cmd.glBufferData GL_ARRAY_BUFFER (vertices.length * sizeofFloat) GL_STATIC_DRAW,
   Cmd.glVertexAttribPointer 0 3 GL_FLOAT false (3 * sizeofFloat) 0,
   Cmd.glEnableVertexAttribArray 0, Cmd.glBindBuffer GL_ARRAY_BUFFER 0,
   Cmd.glBindVertexArray 0]

/-- Lines 290-297 (`processInput`): query the escape key; if pressed, set the
the window-should-close flag. -/
def processInputCmds (esc : Bool) : List Cmd :=
  [Cmd.glfwGetKey GLFW_KEY_ESCAPE] ++
  if esc then [Cmd.glfwSetWindowShouldClose] else []

/-- Lines 246-271: the body of one render-loop iteration (frame `i`):
`processInput`, clear to the fixed color, bind program and VAO, one draw
call, swap buffers, poll events. -/
def frameCmds (env : Env) (i : Nat) : List Cmd :=
  processInputCmds (env.escPressed i) ++
  [Cmd.glClearColor (1/5) (3/10) (3/10) 1, Cmd.glClear GL_COLOR_BUFFER_BIT,
   Cmd.glUseProgram shaderProgram, Cmd.glBindVertexArray VAO,
   Cmd.glDrawArrays GL_TRIANGLES 0 3, Cmd.glfwSwapBuffers, Cmd.glfwPollEvents]

/-- Whether the GLFW window-should-close flag becomes set during frame `i`:
either `processInput` observes the escape key (line 293) or the window system
reports a close request while events are polled. The flag is never cleared by
the program. -/
def closeSignal (env : Env) (i : Nat) : Bool :=
  env.escPressed i || env.closeRequested i

/-- Lines 245-271: the `while (!glfwWindowShouldClose(window))` loop, made
terminating with an explicit fuel.  Arguments: remaining fuel, current frame
index `i`, current value `sc` of the window-should-close flag.  Returns the
trace of the executed iterations and `true` when the loop exited via the
close flag (`false` means the fuel ran out with the loop still running). -/
def renderLoop (env : Env) : Nat → Nat → Bool → List Cmd × Bool
  | 0, _, _ => ([], false)
  | _ + 1, _, true => ([], true)
  | fuel + 1, i, false =>
    (frameCmds env i ++ (renderLoop env fuel (i + 1) (closeSignal env i)).1,
     (renderLoop env fuel (i + 1) (closeSignal env i)).2)

/-- Lines 114-238: everything `main` does between a successful GLAD load and
the render loop. -/
def mainSetupCmds (env : Env) : List Cmd :=
  contextCmds ++ shaderSetupCmds env ++ geometrySetupCmds

/-- The whole of `main` (lines 84-275): the trace of API calls and the exit
code (`none` when the fuel ran out inside the render loop, i.e. the process
has not exited yet).  On the success path the loop is followed by
`glfwTerminate` and `return 0` (lines 273-274). -/
def mainRun (env : Env) (fuel : Nat) : List Cmd × Option Int :=
  if env.windowOk then
    if env.gladOk then
      if (renderLoop env fuel 0 false).2 then
        (mainSetupCmds env ++ (renderLoop env fuel 0 false).1 ++ [Cmd.glfwTerminate], some 0)
      else (mainSetupCmds env ++ (renderLoop env fuel 0 false).1, none)
    else (gladFailCmds, some (-1))
  else (windowFailCmds, some (-1))

/-- Whether a command is a draw call. -/
def isDraw : Cmd → Bool
  | Cmd.glDrawArrays _ _ _ => true
  | _ => false

/-- Number of draw calls in a trace. -/
def countDraws (l : List Cmd) : Nat := l.countP isDraw

/-- The program bound at the moment of each draw call of a trace, given the
program `cur` bound when the trace starts (GL state-machine semantics:
`glUseProgram` changes the binding, `glDrawArrays` uses the current one). -/
def drawnPrograms : List Cmd → Nat → List Nat
  | [], _ => []
  | Cmd.glUseProgram p :: rest, _ => drawnPrograms rest p
  | Cmd.glDrawArrays _ _ _ :: rest, cur => cur :: drawnPrograms rest cur
  | _ :: rest, cur => drawnPrograms rest cur

/-- The buffer bound to `GL_ARRAY_BUFFER` after executing a trace, starting
from binding `b`. -/
def arrayBufferAfter : List Cmd → Nat → Nat
  | [], b => b
  | Cmd.glBindBuffer t v :: rest, b =>
      arrayBufferAfter rest (if t == GL_ARRAY_BUFFER then v else b)
  | _ :: rest, b => arrayBufferAfter rest b

/-- The vertex array bound after executing a trace, starting from binding `b`. -/
def vertexArrayAfter : List Cmd → Nat → Nat
  | [], b => b
  | Cmd.glBindVertexArray v :: rest, _ => vertexArrayAfter rest v
  | _ :: rest, b => vertexArrayAfter rest b

/-- Whether a command refers to shader stage handle `h` (as a shader-typed
argument). -/
def mentionsShaderHandle (h : Nat) : Cmd → Bool
  | Cmd.glShaderSource s => s == h
  | Cmd.glCompileShader s => s == h
  | Cmd.glGetShaderiv s => s == h
  | Cmd.glGetShaderInfoLog s => s == h
  | Cmd.glAttachShader _ s => s == h
  | Cmd.glDeleteShader s => s == h
  | _ => false

/-- Whether a command refers to neither of the two intermediate stage
handles. -/
def noShaderRef (c : Cmd) : Bool :=
  !(mentionsShaderHandle vertexShader c || mentionsShaderHandle fragmentShader c)

/-- The concatenation of the bodies of `n` consecutive frames starting at
frame `i`. -/
def framesTrace (env : Env) : Nat → Nat → List Cmd
  | _, 0 => []
  | i, n + 1 => frameCmds env i ++ framesTrace env (i + 1) n

/-- Lines 278-287 (`framebuffer_size_callback`): the viewport rectangle set
by `glViewport(0, 0, width, height)`. -/
structure Viewport where
  x : Int
  y : Int
  width : Int
  height : Int
deriving DecidableEq

/-- `framebuffer_size_callback` (lines 278-287) as a state transformer on the
viewport: it calls `glViewport(0, 0, width, height)`, replacing whatever
viewport was previously set. -/
def framebuffer_size_callback (width height : Int) (_vp : Viewport) : Viewport :=
  Viewport.mk 0 0 width height

/-- The normalized-device-coordinate to pixel map induced by a viewport on
the x axis, as described by the source comment at lines 283-285 (the GL
viewport transform): `-1` maps to the left edge and `+1` to the right edge. -/
def ndcToPixelX (vp : Viewport) (n : ℚ) : ℚ :=
  (vp.x : ℚ) + (n + 1) / 2 * (vp.width : ℚ)

/-- The normalized-device-coordinate to pixel map induced by a viewport on
the y axis (GL viewport transform, source comment at lines 283-285). -/
def ndcToPixelY (vp : Viewport) (n : ℚ) : ℚ :=
  (vp.y : ℚ) + (n + 1) / 2 * (vp.height : ℚ)

/-- Environment where both shader compilations fail (everything else
succeeds; escape pressed immediately so the loop closes at frame 0). -/
def envBothFail : Env :=
  Env.mk true true false false false (fun _ => true) (fun _ => false)

/-- Environment where only the fragment shader compilation fails. -/
def envFragFail : Env :=
  Env.mk true true true false true (fun _ => true) (fun _ => false)

/-- Environment where compilation succeeds but linking fails, and no close
signal ever arrives. -/
def envLinkFail : Env :=
  Env.mk true true true true false (fun _ => false) (fun _ => false)

/-- Environment where everything succeeds and the escape key is pressed
during frame 1. -/
def envEscAtOne : Env :=
  Env.mk true true true true true (fun i => i == 1) (fun _ => false)

/-- Environment where window creation fails. -/
def envWindowFail : Env :=
  Env.mk false true true true true (fun _ => false) (fun _ => false)

/-- Environment where GLAD loading fails. -/
def envGladFail : Env :=
  Env.mk true false true true true (fun _ => false) (fun _ => false)

/-! ## Helper lemmas -/

/-- Unfolding of `renderLoop` at positive fuel when the close flag is set:
the while-condition fails and the loop exits at once. -/
theorem renderLoop_stop (env : Env) (fuel i : Nat) :
    renderLoop env (fuel + 1) i true = ([], true) := rfl

/-- Unfolding of `renderLoop` at positive fuel when the close flag is clear:
one full iteration runs, then the loop continues with the flag produced by
this frame's input and events. -/
theorem renderLoop_cont (env : Env) (fuel i : Nat) :
    renderLoop env (fuel + 1) i false =
      (frameCmds env i ++ (renderLoop env fuel (i + 1) (closeSignal env i)).1,
       (renderLoop env fuel (i + 1) (closeSignal env i)).2) := rfl

/-- Unfolding of `renderLoop` at zero fuel. -/
theorem renderLoop_zero (env : Env) (i : Nat) (sc : Bool) :
    renderLoop env 0 i sc = ([], false) := rfl

/-- `countDraws` distributes over concatenation. -/
theorem countDraws_append (l₁ l₂ : List Cmd) :
    countDraws (l₁ ++ l₂) = countDraws l₁ + countDraws l₂ :=
  List.countP_append _ _ _

/-- Every frame body issues exactly one draw call. -/
theorem countDraws_frameCmds (env : Env) (i : Nat) :
    countDraws (frameCmds env i) = 1 := by
  cases h : env.escPressed i <;>
    simp only [frameCmds, processInputCmds, h] <;> decide

/-- If the render loop exits (the close flag was observed set), then the
close signal became true at some frame. -/
theorem renderLoop_exit_close (env : Env) :
    ∀ fuel i, (renderLoop env fuel i false).2 = true →
      ∃ k, closeSignal env (i + k) = true := by
  intro fuel
  induction fuel with
  | zero => intro i h; simp [renderLoop_zero] at h
  | succ f ih =>
    intro i h
    have h2 : (renderLoop env f (i + 1) (closeSignal env i)).2 = true := h
    cases hc : closeSignal env i with
    | true => exact ⟨0, by simpa using hc⟩
    | false =>
      rw [hc] at h2
      obtain ⟨k, hk⟩ := ih (i + 1) h2
      exact ⟨k + 1, by rw [show i + (k + 1) = i + 1 + k by omega]; exact hk⟩

/-! ## Claim C4 -/

/-- Claim C4: the process exit code is 0 exactly when the render loop
terminates via the close signal; when window (context) creation or GLAD
function-table loading fails, the exit code is -1 and no render-loop
iteration (no draw call) has happened. -/
theorem exit_code_semantics (env : Env) (fuel : Nat) :
    ((mainRun env fuel).2 = some 0 ↔
      env.windowOk = true ∧ env.gladOk = true ∧ (renderLoop env fuel 0 false).2 = true) ∧
    ((renderLoop env fuel 0 false).2 = true → ∃ k, closeSignal env k = true) ∧
    ((env.windowOk = false ∨ env.gladOk = false) →
      (mainRun env fuel).2 = some (-1) ∧ countDraws (mainRun env fuel).1 = 0) := by
  refine ⟨?_, ?_, ?_⟩
  · cases hW : env.windowOk <;> cases hG : env.gladOk <;>
      cases h2 : (renderLoop env fuel 0 false).2 <;>
      simp [mainRun, hW, hG, h2]
  · intro h
    obtain ⟨k, hk⟩ := renderLoop_exit_close env fuel 0 h
    exact ⟨k, by simpa using hk⟩
  · intro h
    cases hW : env.windowOk with
    | false =>
      have ht : (mainRun env fuel).1 = windowFailCmds := by simp [mainRun, hW]
      exact ⟨by simp [mainRun, hW], by rw [ht]; decide⟩
    | true =>
      have hG : env.gladOk = false := by
        rcases h with h | h
        · rw [hW] at h; exact absurd h (by simp)
        · exact h
      have ht : (mainRun env fuel).1 = gladFailCmds := by simp [mainRun, hW, hG]
      exact ⟨by simp [mainRun, hW, hG], by rw [ht]; decide⟩

/-- Witness for `exit_code_semantics` at a concrete failing environment. -/
theorem exit_code_semantics_witness :
    (mainRun envWindowFail 3).2 = some (-1) ∧ countDraws (mainRun envWindowFail 3).1 = 0 :=
  (exit_code_semantics envWindowFail 3).2.2 (Or.inl rfl)

/-! ## Claim C10 -/

/-- Claim C10: on the window-creation failure path `glfwTerminate` is called
before the process exits with -1, but on the GLAD load failure path the
process exits with -1 without calling `glfwTerminate`: the two fatal paths
differ in cleanup. -/
theorem fatal_paths_cleanup_difference (env : Env) (fuel : Nat) :
    (env.windowOk = false →
      (mainRun env fuel).2 = some (-1) ∧ Cmd.glfwTerminate ∈ (mainRun env fuel).1) ∧
    (env.windowOk = true → env.gladOk = false →
      (mainRun env fuel).2 = some (-1) ∧ Cmd.glfwTerminate ∉ (mainRun env fuel).1) := by
  constructor
  · intro h
    have ht : (mainRun env fuel).1 = windowFailCmds := by simp [mainRun, h]
    exact ⟨by simp [mainRun, h], by rw [ht]; decide⟩
  · intro hW hG
    have ht : (mainRun env fuel).1 = gladFailCmds := by simp [mainRun, hW, hG]
    exact ⟨by simp [mainRun, hW, hG], by rw [ht]; decide⟩

/-- Witness for `fatal_paths_cleanup_difference` at the two concrete failing
environments. -/
theorem fatal_paths_cleanup_difference_witness :
    ((mainRun envWindowFail 2).2 = some (-1) ∧
      Cmd.glfwTerminate ∈ (mainRun envWindowFail 2).1) ∧
    ((mainRun envGladFail 2).2 = some (-1) ∧
      Cmd.glfwTerminate ∉ (mainRun envGladFail 2).1) :=
  ⟨(fatal_paths_cleanup_difference envWindowFail 2).1 rfl,
   (fatal_paths_cleanup_difference envGladFail 2).2 rfl rfl⟩

/-! ## Claim C1 -/

/-- Claim C1 counterexample: with both stage compilations failing, the
program still invokes `glLinkProgram` — the claim that link is skipped when
a compilation fails is false on the code. -/
theorem link_skip_claim_false :
    envBothFail.vertexCompileOk = false ∧ envBothFail.fragmentCompileOk = false ∧
    Cmd.glLinkProgram shaderProgram ∈ (mainRun envBothFail 1).1 := by decide

/-- Claim C1 (amended): the pipeline builder attempts the link
unconditionally — whatever the two compile outcomes are, `glLinkProgram` is
invoked; compile failures are only logged. -/
theorem link_always_attempted (env : Env) (fuel : Nat)
    (hW : env.windowOk = true) (hG : env.gladOk = true) :
    Cmd.glLinkProgram shaderProgram ∈ (mainRun env fuel).1 := by
  have hmem : Cmd.glLinkProgram shaderProgram ∈ mainSetupCmds env := by
    simp [mainSetupCmds, shaderSetupCmds, linkHeadCmds]
  cases h2 : (renderLoop env fuel 0 false).2 with
  | false =>
    have ht : (mainRun env fuel).1 = mainSetupCmds env ++ (renderLoop env fuel 0 false).1 := by
      simp [mainRun, hW, hG, h2]
    rw [ht]; exact List.mem_append_left _ hmem
  | true =>
    have ht : (mainRun env fuel).1 =
        mainSetupCmds env ++ (renderLoop env fuel 0 false).1 ++ [Cmd.glfwTerminate] := by
      simp [mainRun, hW, hG, h2]
    rw [ht]; exact List.mem_append_left _ (List.mem_append_left _ hmem)

/-- Witness for `link_always_attempted` at a concrete environment where both
compilations fail. -/
theorem link_always_attempted_witness :
    Cmd.glLinkProgram shaderProgram ∈ (mainRun envBothFail 2).1 :=
  link_always_attempted envBothFail 2 rfl rfl

/-! ## Claim C2 -/

/-- Claim C2 counterexample: in the environment where linking fails, the
first loop iteration already issues a draw call with `shaderProgram` (whose
link-success flag is false) as the bound program — the claimed invariant is
false on the code. -/
theorem no_draw_invalid_program_claim_false :
    envLinkFail.linkOk = false ∧
    shaderProgram ∈ drawnPrograms (mainRun envLinkFail 1).1 0 := by decide

/-- Claim C2 (amended): the render loop issues draw calls referencing the
program regardless of the link-success flag — even when linking failed, every
entered loop iteration binds `shaderProgram` and immediately draws with it. -/
theorem draw_issued_regardless_of_link_flag (env : Env) (fuel : Nat)
    (hW : env.windowOk = true) (hG : env.gladOk = true) (hL : env.linkOk = false)
    (hF : 1 ≤ fuel) :
    ∃ pre post, (mainRun env fuel).1 =
      pre ++ [Cmd.glUseProgram shaderProgram, Cmd.glBindVertexArray VAO,
              Cmd.glDrawArrays GL_TRIANGLES 0 3] ++ post := by
  obtain ⟨f, rfl⟩ : ∃ f, fuel = f + 1 := ⟨fuel - 1, by omega⟩
  cases h2 : (renderLoop env (f + 1) 0 false).2 with
  | false =>
    refine ⟨mainSetupCmds env ++ processInputCmds (env.escPressed 0) ++
      [Cmd.glClearColor (1/5) (3/10) (3/10) 1, Cmd.glClear GL_COLOR_BUFFER_BIT],
      [Cmd.glfwSwapBuffers, Cmd.glfwPollEvents] ++
        (renderLoop env f 1 (closeSignal env 0)).1, ?_⟩
    have ht : (mainRun env (f + 1)).1 =
        mainSetupCmds env ++ (renderLoop env (f + 1) 0 false).1 := by
      simp [mainRun, hW, hG, h2]
    rw [ht, renderLoop_cont]
    simp [frameCmds, List.append_assoc]
  | true =>
    refine ⟨mainSetupCmds env ++ processInputCmds (env.escPressed 0) ++
      [Cmd.glClearColor (1/5) (3/10) (3/10) 1, Cmd.glClear GL_COLOR_BUFFER_BIT],
      [Cmd.glfwSwapBuffers, Cmd.glfwPollEvents] ++
        (renderLoop env f 1 (closeSignal env 0)).1 ++ [Cmd.glfwTerminate], ?_⟩
    have ht : (mainRun env (f + 1)).1 =
        mainSetupCmds env ++ (renderLoop env (f + 1) 0 false).1 ++ [Cmd.glfwTerminate] := by
      simp [mainRun, hW, hG, h2]
    rw [ht, renderLoop_cont]
    simp [frameCmds, List.append_assoc]

/-- Witness for `draw_issued_regardless_of_link_flag` at the concrete
link-failure environment. -/
theorem draw_issued_regardless_of_link_flag_witness :
    ∃ pre post, (mainRun envLinkFail 1).1 =
      pre ++ [Cmd.glUseProgram shaderProgram, Cmd.glBindVertexArray VAO,
              Cmd.glDrawArrays GL_TRIANGLES 0 3] ++ post :=
  draw_issued_regardless_of_link_flag envLinkFail 1 rfl rfl rfl (by decide)

/-! ## Claim C3 -/

/-- Claim C3: evaluation at the failing input.  When the fragment shader
fails to compile (and the vertex shader compiled fine), the program prints
the FRAGMENT diagnostic but fetches the info log from `vertexShader` — the
wrong handle; `glGetShaderInfoLog` is never called on the failing fragment
stage's own handle.  This contradicts the code's own FRAGMENT diagnostic
message (source line 145 versus line 146). -/
theorem fragment_failure_log_uses_vertex_handle :
    envFragFail.vertexCompileOk = true ∧ envFragFail.fragmentCompileOk = false ∧
    Cmd.coutError msgFragmentFail ∈ (mainRun envFragFail 1).1 ∧
    Cmd.glGetShaderInfoLog vertexShader ∈ (mainRun envFragFail 1).1 ∧
    Cmd.glGetShaderInfoLog fragmentShader ∉ (mainRun envFragFail 1).1 := by decide

/-! ## Claim C5 -/

/-- Claim C5: every iteration of the running loop performs, in order: input
processing, clear to the fixed color (0.2, 0.3, 0.3, 1.0), bind the shader
program and the VAO, exactly one draw call with triangle topology over the
uploaded vertex count (9 floats / 3 components = 3 vertices), then swap
buffers and poll events; and the render-loop trace is exactly a concatenation
of such whole iterations. -/
theorem frame_iteration_order :
    (∀ env i, frameCmds env i =
        processInputCmds (env.escPressed i) ++
        ([Cmd.glClearColor (1/5) (3/10) (3/10) 1, Cmd.glClear GL_COLOR_BUFFER_BIT] ++
         [Cmd.glUseProgram shaderProgram, Cmd.glBindVertexArray VAO] ++
         [Cmd.glDrawArrays GL_TRIANGLES 0 (vertices.length / 3)] ++
         [Cmd.glfwSwapBuffers, Cmd.glfwPollEvents]) ∧
      countDraws (frameCmds env i) = 1) ∧
    (∀ env fuel i sc, ∃ n, (renderLoop env fuel i sc).1 = framesTrace env i n) := by
  constructor
  · intro env i
    exact ⟨rfl, countDraws_frameCmds env i⟩
  · intro env fuel
    induction fuel with
    | zero => intro i sc; exact ⟨0, rfl⟩
    | succ f ih =>
      intro i sc
      cases sc with
      | true => exact ⟨0, rfl⟩
      | false =>
        obtain ⟨n, hn⟩ := ih (i + 1) (closeSignal env i)
        exact ⟨n + 1, by rw [renderLoop_cont]; simp [framesTrace, hn]⟩

/-! ## Claim C6 -/

/-- If the close signal first becomes true at frame `i + k`, the loop (run
from frame `i` with the flag clear and enough fuel) executes exactly `k + 1`
iterations — the frame observing the signal still completes, no further frame
starts — and then exits. -/
theorem close_latency (env : Env) :
    ∀ k i fuel, (∀ j, j < k → closeSignal env (i + j) = false) →
      closeSignal env (i + k) = true → k + 2 ≤ fuel →
      (renderLoop env fuel i false).2 = true ∧
      countDraws (renderLoop env fuel i false).1 = k + 1 := by
  intro k
  induction k with
  | zero =>
    intro i fuel h0 hs hf
    obtain ⟨f, rfl⟩ : ∃ f, fuel = f + 2 := ⟨fuel - 2, by omega⟩
    have hs0 : closeSignal env i = true := by simpa using hs
    rw [show f + 2 = f + 1 + 1 by omega, renderLoop_cont, hs0, renderLoop_stop]
    refine ⟨rfl, ?_⟩
    simp [countDraws_append, countDraws_frameCmds]
  | succ k ih =>
    intro i fuel h0 hs hf
    obtain ⟨f, rfl⟩ : ∃ f, fuel = f + 1 := ⟨fuel - 1, by omega⟩
    have hc : closeSignal env i = false := by simpa using h0 0 (by omega)
    rw [renderLoop_cont, hc]
    have ih2 := ih (i + 1) f
      (fun j hj => by
        have := h0 (j + 1) (by omega)
        rwa [show i + (j + 1) = i + 1 + j by omega] at this)
      (by rwa [show i + 1 + k = i + (k + 1) by omega])
      (by omega)
    refine ⟨ih2.1, ?_⟩
    simp [countDraws_append, countDraws_frameCmds, ih2.2]
    omega

/-- Claim C6: once the close condition becomes true (first at frame `k`), the
loop performs the remainder of that very iteration (its render completes, so
exactly `k + 1` draw calls happen in total) and no further iteration: it then
enters the terminated state. -/
theorem close_observed_completes_frame (env : Env) (k fuel : Nat)
    (h0 : ∀ j, j < k → closeSignal env j = false)
    (hs : closeSignal env k = true) (hf : k + 2 ≤ fuel) :
    (renderLoop env fuel 0 false).2 = true ∧
    countDraws (renderLoop env fuel 0 false).1 = k + 1 :=
  close_latency env k 0 fuel
    (fun j hj => by simpa using h0 j hj) (by simpa using hs) hf

/-- Witness for `close_observed_completes_frame`: escape pressed at frame 1
gives exactly two frames. -/
theorem close_observed_completes_frame_witness :
    (renderLoop envEscAtOne 4 0 false).2 = true ∧
    countDraws (renderLoop envEscAtOne 4 0 false).1 = 1 + 1 :=
  close_observed_completes_frame envEscAtOne 1 4
    (fun j hj => by
      have hj0 : j = 0 := by omega
      rw [hj0]; rfl)
    rfl (by omega)

/-! ## Claim C7 -/

/-- Claim C7: the geometry upload performs the seven binding steps in the
stated order (bind VAO, bind VBO, copy the vertex bytes, declare the
attribute layout, enable slot 0, unbind VBO, unbind VAO), the declared layout
is one 3-component float attribute with stride 3 × component size and zero
offset, the layout declaration happens while the data buffer is still bound
(GL_ARRAY_BUFFER binding is `VBO` just before `glVertexAttribPointer` and the
VAO is bound), and both bindings are cleared at the end. -/
theorem geometry_binding_discipline :
    geometrySetupCmds.drop 2 =
      [Cmd.glBindVertexArray VAO, Cmd.glBindBuffer GL_ARRAY_BUFFER VBO,
       Cmd.glBufferData GL_ARRAY_BUFFER (vertices.length * sizeofFloat) GL_STATIC_DRAW,
       Cmd.glVertexAttribPointer 0 3 GL_FLOAT false (3 * sizeofFloat) 0,
       Cmd.glEnableVertexAttribArray 0, Cmd.glBindBuffer GL_ARRAY_BUFFER 0,
       Cmd.glBindVertexArray 0] ∧
    3 * sizeofFloat = 12 ∧ vertices.length * sizeofFloat = 36 ∧
    arrayBufferAfter (geometrySetupCmds.take 5) 0 = VBO ∧
    vertexArrayAfter (geometrySetupCmds.take 5) 0 = VAO ∧
    arrayBufferAfter geometrySetupCmds 0 = 0 ∧
    vertexArrayAfter geometrySetupCmds 0 = 0 := by decide

/-! ## Claim C8 -/

/-- Claim C8: for every resize notification `(w, h)` the callback sets the
viewport to exactly the full surface — origin (0, 0), size w × h, whatever
the previous viewport was — so the normalized-to-pixel map is linear with -1
mapping to 0 and +1 mapping to w (analogously h), with each axis scaled
independently (no aspect-ratio correction). -/
theorem resize_full_surface_viewport (w h : Int) (vp : Viewport) :
    framebuffer_size_callback w h vp = Viewport.mk 0 0 w h ∧
    ndcToPixelX (framebuffer_size_callback w h vp) (-1) = 0 ∧
    ndcToPixelX (framebuffer_size_callback w h vp) 1 = (w : ℚ) ∧
    ndcToPixelY (framebuffer_size_callback w h vp) (-1) = 0 ∧
    ndcToPixelY (framebuffer_size_callback w h vp) 1 = (h : ℚ) ∧
    (∀ n : ℚ, ndcToPixelX (framebuffer_size_callback w h vp) n = (n + 1) / 2 * (w : ℚ)) ∧
    (∀ n : ℚ, ndcToPixelY (framebuffer_size_callback w h vp) n = (n + 1) / 2 * (h : ℚ)) := by
  refine ⟨rfl, ?_, ?_, ?_, ?_, ?_, ?_⟩ <;>
    simp [ndcToPixelX, ndcToPixelY, framebuffer_size_callback]

/-! ## Claim C9 -/

/-- No command of a frame body refers to either intermediate stage handle. -/
theorem noShaderRef_frameCmds (env : Env) (i : Nat) :
    (frameCmds env i).all noShaderRef = true := by
  cases h : env.escPressed i <;>
    simp only [frameCmds, processInputCmds, h] <;> decide

/-- No command of the whole render-loop trace refers to either intermediate
stage handle. -/
theorem noShaderRef_renderLoop (env : Env) :
    ∀ fuel i sc, ((renderLoop env fuel i sc).1).all noShaderRef = true := by
  intro fuel
  induction fuel with
  | zero => intro i sc; rfl
  | succ f ih =>
    intro i sc
    cases sc with
    | true => rfl
    | false =>
      rw [renderLoop_cont]
      simp [List.all_append, noShaderRef_frameCmds env i,
        ih (i + 1) (closeSignal env i)]

/-- No command of the link-status check refers to a stage handle. -/
theorem noShaderRef_linkCheckCmds (ok : Bool) :
    (linkCheckCmds ok).all noShaderRef = true := by
  cases ok <;> decide

/-- No command of the geometry setup refers to a stage handle. -/
theorem noShaderRef_geometryCmds : geometrySetupCmds.all noShaderRef = true := by decide

/-- Claim C9: whatever the compile and link outcomes, the trace of `main`
splits right after the link attempt (only the program activation stands
between `glLinkProgram` and the deletions): both stage handles are deleted
there, and no later command of the whole run refers to either stage handle —
only the program handle is used afterwards. -/
theorem stage_handles_released_after_link (env : Env) (fuel : Nat)
    (hW : env.windowOk = true) (hG : env.gladOk = true) :
    ∃ post, (mainRun env fuel).1 =
      (contextCmds ++ vertexCompileCmds env.vertexCompileOk ++
       fragmentCompileCmds env.fragmentCompileOk ++ linkHeadCmds) ++
      deleteShaderCmds ++ post ∧
    Cmd.glLinkProgram shaderProgram ∈
      contextCmds ++ vertexCompileCmds env.vertexCompileOk ++
      fragmentCompileCmds env.fragmentCompileOk ++ linkHeadCmds ∧
    post.all noShaderRef = true := by
  cases h2 : (renderLoop env fuel 0 false).2 with
  | false =>
    refine ⟨linkCheckCmds env.linkOk ++ geometrySetupCmds ++
      (renderLoop env fuel 0 false).1, ?_, ?_, ?_⟩
    · have ht : (mainRun env fuel).1 =
          mainSetupCmds env ++ (renderLoop env fuel 0 false).1 := by
        simp [mainRun, hW, hG, h2]
      rw [ht]
      simp [mainSetupCmds, shaderSetupCmds, List.append_assoc]
    · simp [linkHeadCmds]
    · simp [List.all_append, noShaderRef_linkCheckCmds, noShaderRef_geometryCmds,
        noShaderRef_renderLoop env fuel 0 false]
  | true =>
    refine ⟨linkCheckCmds env.linkOk ++ geometrySetupCmds ++
      (renderLoop env fuel 0 false).1 ++ [Cmd.glfwTerminate], ?_, ?_, ?_⟩
    · have ht : (mainRun env fuel).1 =
          mainSetupCmds env ++ (renderLoop env fuel 0 false).1 ++ [Cmd.glfwTerminate] := by
        simp [mainRun, hW, hG, h2]
      rw [ht]
      simp [mainSetupCmds, shaderSetupCmds, List.append_assoc]
    · simp [linkHeadCmds]
    · simp [List.all_append, noShaderRef_linkCheckCmds, noShaderRef_geometryCmds,
        noShaderRef_renderLoop env fuel 0 false]
      decide

/-- Witness for `stage_handles_released_after_link` at a concrete environment
with a failed link. -/
theorem stage_handles_released_after_link_witness :
    ∃ post, (mainRun envLinkFail 1).1 =
      (contextCmds ++ vertexCompileCmds envLinkFail.vertexCompileOk ++
       fragmentCompileCmds envLinkFail.fragmentCompileOk ++ linkHeadCmds) ++
      deleteShaderCmds ++ post ∧
    Cmd.glLinkProgram shaderProgram ∈
      contextCmds ++ vertexCompileCmds envLinkFail.vertexCompileOk ++
      fragmentCompileCmds envLinkFail.fragmentCompileOk ++ linkHeadCmds ∧
    post.all noShaderRef = true :=
  stage_handles_released_after_link envLinkFail 1 rfl rfl
